import Mathlib

/-!
Shallow embedding of the `vertex_ai_imagen` Python library
(src/vertex_ai_imagen/{models,exceptions,client}.py) and proofs about it.

Conventions of the embedding:
* Python exceptions become the inductive `PyErr`; raising is `Except.error`.
* Python byte strings become `List Nat` (each entry < 256).
* `base64.b64decode` on a `str` is modelled after CPython: the string is
  ASCII-encoded, then decoded by `binascii.a2b_base64` in non-strict mode
  (invalid characters are skipped; a pad sequence completing a quad ends
  the decode; a leftover quad position raises `binascii.Error`).
* The lazy cached property `GeneratedImage.image_data` is modelled by
  explicit state passing: the accessor returns the bytes together with the
  (possibly updated) object.
* The HTTP transport is a parameter: `generate` receives the outcome the
  network would produce (either a raised transport exception or an
  `HttpResponse`), and reports whether the POST was reached.
-/

/-- Model of the Python exception values the library can see.
`valueError` covers Python's builtin `ValueError`; `binasciiError` is
`binascii.Error` (itself a `ValueError` subclass); `imagenError`,
`authenticationError`, `apiError`, `validationError` are the classes of
src/vertex_ai_imagen/exceptions.py; `otherExc` stands for any other
exception (transport failures, JSON parse errors, ...). -/
inductive PyErr where
  | valueError (msg : String)
  | keyError (key : String)
  | indexError (msg : String)
  | binasciiError (msg : String)
  | imagenError (msg : String)
  | authenticationError (msg : String)
  | apiError (msg : String) (status_code : Option Int)
  | validationError (msg : String)
  | otherExc (msg : String)
  deriving DecidableEq, Repr

/-- `isinstance(e, ImagenError)`: the four classes of exceptions.py form the
`ImagenError` family; builtin exceptions and `otherExc` are outside it. -/
def PyErr.isImagenError : PyErr → Bool
  | .imagenError _ => true
  | .authenticationError _ => true
  | .apiError _ _ => true
  | .validationError _ => true
  | _ => false

/-- `str(e)` as the library uses it in f-strings: the message carried by the
exception (for `KeyError`, Python prints the repr of the key). -/
def PyErr.str : PyErr → String
  | .valueError m => m
  | .keyError k => "'" ++ k ++ "'"
  | .indexError m => m
  | .binasciiError m => m
  | .imagenError m => m
  | .authenticationError m => m
  | .apiError m _ => m
  | .validationError m => m
  | .otherExc m => m

/-! ### base64 decoding (CPython `binascii.a2b_base64`, non-strict mode) -/

/-- `table_a2b_base64`: map an ASCII code to its 6-bit value, `none` for a
character outside the base64 alphabet (the pad character `=` is handled
separately by the main loop). -/
def b64table (c : Nat) : Option Nat :=
  if 65 ≤ c ∧ c ≤ 90 then some (c - 65)
  else if 97 ≤ c ∧ c ≤ 122 then some (c - 97 + 26)
  else if 48 ≤ c ∧ c ≤ 57 then some (c - 48 + 52)
  else if c = 43 then some 62
  else if c = 47 then some 63
  else none

/-- The decode loop of `binascii.a2b_base64` with `strict_mode=False`:
state is the quad position, the pending high bits (`leftchar`), the count
of pad characters seen in the current quad, and the output accumulated in
reverse. Characters outside the alphabet are skipped; a `=` once the quad
position is at least 2 that completes the quad ends the decode; a nonzero
quad position at the end of input raises `binascii.Error`. -/
def a2b_base64_loop : List Nat → Nat → Nat → Nat → List Nat → Except PyErr (List Nat)
  | [], quad_pos, _, _, acc =>
    if quad_pos = 0 then .ok acc.reverse
    else if quad_pos = 1 then
      .error (.binasciiError
        "Invalid base64-encoded string: number of data characters cannot be 1 more than a multiple of 4")
    else .error (.binasciiError "Incorrect padding")
  | c :: rest, quad_pos, leftchar, pads, acc =>
    if c = 61 then
      if 2 ≤ quad_pos then
        if 4 ≤ quad_pos + (pads + 1) then .ok acc.reverse
        else a2b_base64_loop rest quad_pos leftchar (pads + 1) acc
      else a2b_base64_loop rest quad_pos leftchar pads acc
    else
      match b64table c with
      | none => a2b_base64_loop rest quad_pos leftchar pads acc
      | some v =>
        match quad_pos with
        | 0 => a2b_base64_loop rest 1 v 0 acc
        | 1 => a2b_base64_loop rest 2 (v % 16) 0 ((leftchar * 4 + v / 16) :: acc)
        | 2 => a2b_base64_loop rest 3 (v % 4) 0 ((leftchar * 16 + v / 4) :: acc)
        | _ => a2b_base64_loop rest 0 0 0 ((leftchar * 64 + v) :: acc)

/-- `base64.b64decode(s)` for a `str` argument: encode to ASCII (a
non-ASCII character raises a `ValueError` subclass), then run the
non-strict `a2b_base64` loop. -/
def b64decode (s : String) : Except PyErr (List Nat) :=
  let cs := s.data.map Char.toNat
  if cs.all (fun c => c < 128) then a2b_base64_loop cs 0 0 0 []
  else .error (.valueError "string argument should contain only ASCII characters")

/-! ### GeneratedImage (models.py) -/

/-- The `GeneratedImage` object of models.py.  `image_cache` is the private
`_image_data` slot backing the lazy `image_data` property (`none` is
Python's `None`). -/
structure GeneratedImage where
  base64_data : String
  prompt : String
  enhanced_prompt : String
  image_cache : Option (List Nat)
  deriving DecidableEq, Repr

/-- `GeneratedImage.__init__(base64_data, prompt, enhanced_prompt=None)`:
`self.enhanced_prompt = enhanced_prompt or prompt`, so both `None` and the
empty string fall back to `prompt`; the cache slot starts at `None`. -/
def GeneratedImage.init (base64_data prompt : String)
    (enhanced_prompt : Option String) : GeneratedImage :=
  { base64_data := base64_data
    prompt := prompt
    enhanced_prompt :=
      match enhanced_prompt with
      | some s => if s = "" then prompt else s
      | none => prompt
    image_cache := none }

/-- The `image_data` property: decode `base64_data` on first access and
cache the bytes; later accesses return the cache.  The returned
`GeneratedImage` is the object after the access. -/
def GeneratedImage.image_data (img : GeneratedImage) :
    Except PyErr (List Nat × GeneratedImage) :=
  match img.image_cache with
  | some d => .ok (d, img)
  | none =>
    match b64decode img.base64_data with
    | .ok d => .ok (d, { img with image_cache := some d })
    | .error e => .error e

/-- One element of the response's `predictions` array, as a record of the
two keys the library reads (`none` models an absent key). -/
structure Prediction where
  bytesBase64Encoded : Option String
  prompt : Option String
  deriving DecidableEq, Repr

/-- `GeneratedImage.from_api_response(prediction)`:
`prediction["bytesBase64Encoded"]` raises `KeyError` when absent;
`prompt = prediction.get("prompt", "")`;
`enhanced_prompt = prediction.get("prompt")` (then `__init__`'s
`or`-fallback applies). -/
def GeneratedImage.from_api_response (pred : Prediction) :
    Except PyErr GeneratedImage :=
  match pred.bytesBase64Encoded with
  | none => .error (.keyError "bytesBase64Encoded")
  | some b => .ok (GeneratedImage.init b (pred.prompt.getD "") pred.prompt)

/-! ### ImageRequest (models.py) -/

/-- The validated `ImageRequest` dataclass. -/
structure ImageRequest where
  prompt : String
  model : String
  aspect_ratio : String
  count : Int
  negative_prompt : Option String
  seed : Option Int
  safety_setting : String
  enhance_prompt : Bool
  deriving DecidableEq, Repr

/-- The five ratios `__post_init__` accepts. -/
def valid_ratios : List String := ["1:1", "3:4", "4:3", "16:9", "9:16"]

/-- The characters Python's `str.strip()` removes: exactly the code points
whose `str.isspace()` holds — U+0009-U+000D, U+001C-U+0020, U+0085 (NEL),
U+00A0 (NBSP), U+1680 (Ogham space mark), U+2000-U+200A, U+2028 and U+2029
(line/paragraph separators), U+202F, U+205F and U+3000 (narrow no-break,
medium mathematical and ideographic spaces). -/
def isPyWhitespace (c : Char) : Bool :=
  let n := c.toNat
  (9 ≤ n ∧ n ≤ 13) ∨ (28 ≤ n ∧ n ≤ 32) ∨ n = 133 ∨ n = 160 ∨ n = 5760 ∨
    (8192 ≤ n ∧ n ≤ 8202) ∨ n = 8232 ∨ n = 8233 ∨ n = 8239 ∨ n = 8287 ∨
    n = 12288

/-- Python's `str.strip()`: drop whitespace from both ends. -/
def py_strip (s : String) : String :=
  ⟨((s.data.dropWhile isPyWhitespace).reverse.dropWhile isPyWhitespace).reverse⟩

/-- Python's `repr` of a list of plain strings, as the f-string
`f"지원되는 비율: {valid_ratios}"` renders the ratio list (each element in
single quotes, separated by comma-space, in square brackets). -/
def py_list_repr (l : List String) : String :=
  "[" ++ String.intercalate ", " (l.map (fun s => "'" ++ s ++ "'")) ++ "]"

/-- The dataclass constructor followed by `__post_init__`: the checks run in
source order (`not self.prompt or not self.prompt.strip()`, then the count
range, then the ratio set) and each failure raises a builtin `ValueError`. -/
def mkImageRequest (prompt model aspect_ratio : String) (count : Int)
    (negative_prompt : Option String) (seed : Option Int)
    (safety_setting : String) (enhance_prompt : Bool) :
    Except PyErr ImageRequest :=
  if prompt = "" ∨ py_strip prompt = "" then
    .error (.valueError "프롬프트는 필수입니다")
  else if count < 1 ∨ 4 < count then
    .error (.valueError "이미지 개수는 1-4개여야 합니다")
  else if valid_ratios.contains aspect_ratio then
    .ok { prompt := prompt, model := model, aspect_ratio := aspect_ratio,
          count := count, negative_prompt := negative_prompt, seed := seed,
          safety_setting := safety_setting, enhance_prompt := enhance_prompt }
  else
    .error (.valueError ("지원되는 비율: " ++ py_list_repr valid_ratios))

/-! ### Client (client.py) -/

/-- A JSON value, for the POST body `_call_api` builds. -/
inductive JVal where
  | s (v : String)
  | i (v : Int)
  | b (v : Bool)
  | arr (v : List JVal)
  | obj (v : List (String × JVal))

/-- `ImagenClient.SUPPORTED_MODELS`. -/
def SUPPORTED_MODELS : List String :=
  ["imagegeneration@006", "imagegeneration@005", "imagegeneration@002",
   "imagen-3.0-generate-001", "imagen-3.0-generate-002",
   "imagen-3.0-fast-generate-001"]

/-- The `request_data` dict `_call_api` builds (client.py lines 170-188):
the four unconditional parameters, then `negativePrompt` when the field is
truthy (non-`None` and non-empty), `safetySetting` when truthy (any
non-empty string), `seed` when not `None`, in that insertion order. -/
def build_request_data (req : ImageRequest) : JVal :=
  .obj
    [("instances", .arr [.obj [("prompt", .s req.prompt)]]),
     ("parameters", .obj (
       [("sampleCount", .i req.count),
        ("aspectRatio", .s req.aspect_ratio),
        ("addWatermark", .b false),
        ("enhancePrompt", .b req.enhance_prompt)]
       ++ (match req.negative_prompt with
           | some np => if np = "" then [] else [("negativePrompt", .s np)]
           | none => [])
       ++ (if req.safety_setting = "" then []
           else [("safetySetting", .s req.safety_setting)])
       ++ (match req.seed with
           | some sd => [("seed", .i sd)]
           | none => [])))]

/-- The `parameters` object of the built body, as a key-value list. -/
def request_parameters (req : ImageRequest) : List (String × JVal) :=
  [("sampleCount", .i req.count),
   ("aspectRatio", .s req.aspect_ratio),
   ("addWatermark", .b false),
   ("enhancePrompt", .b req.enhance_prompt)]
  ++ (match req.negative_prompt with
      | some np => if np = "" then [] else [("negativePrompt", .s np)]
      | none => [])
  ++ (if req.safety_setting = "" then []
      else [("safetySetting", .s req.safety_setting)])
  ++ (match req.seed with
      | some sd => [("seed", .i sd)]
      | none => [])

/-- The parsed 200-response body: `result.get("predictions", [])` reads the
`predictions` key, defaulting to the empty list. -/
structure ApiResult where
  predictions : Option (List Prediction)
  deriving DecidableEq, Repr

/-- What the HTTP transport hands back: the status code, the raw text, and
the outcome of `response.json()` (which can itself raise). -/
structure HttpResponse where
  status_code : Int
  text : String
  jsonBody : Except PyErr ApiResult

/-- The tail of `_call_api` (client.py lines 202-206): a non-200 status
raises `APIError(f"HTTP {status}: {text}", status)`; otherwise the parsed
JSON body is returned. -/
def call_api_response (resp : HttpResponse) : Except PyErr ApiResult :=
  if resp.status_code ≠ 200 then
    .error (.apiError ("HTTP " ++ toString resp.status_code ++ ": " ++ resp.text)
      (some resp.status_code))
  else resp.jsonBody

/-- The result of `generate`: a bare image when `count == 1`, a list
otherwise. -/
inductive GenResult where
  | single (img : GeneratedImage)
  | many (imgs : List GeneratedImage)
  deriving DecidableEq, Repr

/-- The `except` clause of `generate` (client.py lines 156-160): an
`ImagenError` (or `ValidationError`, a subclass) is re-raised unchanged;
anything else is wrapped as `APIError(f"이미지 생성 실패: {e}")` with no
status code. -/
def wrapExc (e : PyErr) : PyErr :=
  if e.isImagenError then e else .apiError ("이미지 생성 실패: " ++ e.str) none

/-- The list comprehension
`[GeneratedImage.from_api_response(pred) for pred in predictions]`:
predictions are converted left to right and the first raised exception
propagates. -/
def map_from_api : List Prediction → Except PyErr (List GeneratedImage)
  | [] => .ok []
  | p :: ps =>
    match GeneratedImage.from_api_response p with
    | .error e => .error e
    | .ok img =>
      match map_from_api ps with
      | .error e => .error e
      | .ok imgs => .ok (img :: imgs)

/-- The body of `generate`'s `try` block (client.py lines 142-154), given
the transport outcome: run `_call_api`, read `predictions` (default `[]`),
raise `APIError` when it is empty, map each prediction through
`from_api_response`, and return `images[0]` when `count == 1` (an empty
list would raise `IndexError`) and the whole list otherwise. -/
def generate_try (count : Int) (transport : Except PyErr HttpResponse) :
    Except PyErr GenResult :=
  match (transport.bind call_api_response : Except PyErr ApiResult) with
  | .error e => .error e
  | .ok result =>
    let predictions := result.predictions.getD []
    if predictions.isEmpty then
      .error (.apiError "이미지가 생성되지 않았습니다" none)
    else
      match map_from_api predictions with
      | .error e => .error e
      | .ok images =>
        if count = 1 then
          match images with
          | [] => .error (.indexError "list index out of range")
          | img :: _ => .ok (.single img)
        else .ok (.many images)

/-- The `ImagenClient` state: the credential slot is `None` until a
`setup_credentials*` call stores a token. -/
structure ImagenClient where
  project_id : String
  location : String
  credentials : Option String
  deriving DecidableEq, Repr

/-- `ImagenClient.generate` (client.py lines 94-160), with the transport
outcome as a parameter.  Returns the call's outcome together with a flag
recording whether the HTTP POST was reached: the credential check, the
`ImageRequest` validation and the supported-model check all come before
`_call_api`, so each of those failures leaves the flag `false`. -/
def ImagenClient.generate (c : ImagenClient) (prompt model aspect_ratio : String)
    (count : Int) (negative_prompt : Option String) (seed : Option Int)
    (safety_setting : String) (enhance_prompt : Bool)
    (transport : Except PyErr HttpResponse) :
    Except PyErr GenResult × Bool :=
  match c.credentials with
  | none =>
    (.error (.authenticationError "인증이 설정되지 않았습니다. setup_credentials() 호출 필요"),
     false)
  | some _ =>
    match mkImageRequest prompt model aspect_ratio count negative_prompt seed
        safety_setting enhance_prompt with
    | .error e => (.error e, false)
    | .ok req =>
      if SUPPORTED_MODELS.contains req.model then
        (match generate_try req.count transport with
         | .ok r => (.ok r, true)
         | .error e => (.error (wrapExc e), true))
      else (.error (.validationError ("지원되지 않는 모델: " ++ req.model)), false)

/-! ### Helper lemmas shared by the claim theorems -/

/-- The prediction-to-image conversion preserves length and order. -/
lemma map_from_api_length (ps : List Prediction) (imgs : List GeneratedImage)
    (h : map_from_api ps = .ok imgs) : imgs.length = ps.length := by
  induction ps generalizing imgs with
  | nil =>
    simp only [map_from_api] at h
    cases h
    rfl
  | cons p ps ih =>
    simp only [map_from_api] at h
    cases hp : GeneratedImage.from_api_response p with
    | error e => rw [hp] at h; cases h
    | ok img =>
      rw [hp] at h
      cases hps : map_from_api ps with
      | error e => rw [hps] at h; cases h
      | ok tl =>
        rw [hps] at h
        cases h
        simp [ih tl hps]

/-- Inverting the conversion of a nonempty prediction list. -/
lemma map_from_api_cons (p : Prediction) (ps : List Prediction)
    (l : List GeneratedImage) (h : map_from_api (p :: ps) = .ok l) :
    ∃ img tl, GeneratedImage.from_api_response p = .ok img ∧
      map_from_api ps = .ok tl ∧ l = img :: tl := by
  simp only [map_from_api] at h
  cases hp : GeneratedImage.from_api_response p with
  | error e => rw [hp] at h; cases h
  | ok img =>
    rw [hp] at h
    cases hps : map_from_api ps with
    | error e => rw [hps] at h; cases h
    | ok tl =>
      rw [hps] at h
      cases h
      exact ⟨img, tl, rfl, rfl, rfl⟩

/-- A validated construction: when the three `__post_init__` checks pass,
`mkImageRequest` returns the record of its arguments. -/
lemma mkImageRequest_ok (prompt model aspect_ratio : String) (count : Int)
    (negative_prompt : Option String) (seed : Option Int)
    (safety_setting : String) (enhance_prompt : Bool)
    (h1 : ¬(prompt = "" ∨ py_strip prompt = ""))
    (h2 : ¬(count < 1 ∨ 4 < count))
    (h3 : valid_ratios.contains aspect_ratio = true) :
    mkImageRequest prompt model aspect_ratio count negative_prompt seed
      safety_setting enhance_prompt =
    .ok { prompt := prompt, model := model, aspect_ratio := aspect_ratio,
          count := count, negative_prompt := negative_prompt, seed := seed,
          safety_setting := safety_setting, enhance_prompt := enhance_prompt } := by
  unfold mkImageRequest
  rw [if_neg h1, if_neg h2, if_pos (by simpa using h3)]

/-- Unfolding `generate` for an authenticated client and arguments that
pass all pre-network checks: the outcome is the `try` block's result with
the `except` clause applied, and the POST is reached. -/
lemma generate_valid (project_id location token : String)
    (prompt model aspect_ratio : String) (count : Int)
    (negative_prompt : Option String) (seed : Option Int)
    (safety_setting : String) (enhance_prompt : Bool)
    (transport : Except PyErr HttpResponse)
    (h1 : ¬(prompt = "" ∨ py_strip prompt = ""))
    (h2 : ¬(count < 1 ∨ 4 < count))
    (h3 : valid_ratios.contains aspect_ratio = true)
    (hm : SUPPORTED_MODELS.contains model = true) :
    ImagenClient.generate ⟨project_id, location, some token⟩ prompt model
      aspect_ratio count negative_prompt seed safety_setting enhance_prompt
      transport =
    (match generate_try count transport with
     | .ok r => (.ok r, true)
     | .error e => (.error (wrapExc e), true)) := by
  unfold ImagenClient.generate
  rw [mkImageRequest_ok prompt model aspect_ratio count negative_prompt seed
    safety_setting enhance_prompt h1 h2 h3]
  simp only []
  rw [if_pos hm]

/-- A transport-level exception propagates out of the `try` body. -/
lemma generate_try_transport (count : Int) (e : PyErr) :
    generate_try count (.error e) = .error e := by
  rfl

/-- A non-200 response raises `APIError` with the status and raw text. -/
lemma generate_try_non200 (count : Int) (resp : HttpResponse)
    (h : resp.status_code ≠ 200) :
    generate_try count (.ok resp) =
      .error (.apiError ("HTTP " ++ toString resp.status_code ++ ": " ++ resp.text)
        (some resp.status_code)) := by
  have hc : call_api_response resp =
      .error (.apiError ("HTTP " ++ toString resp.status_code ++ ": " ++ resp.text)
        (some resp.status_code)) := by
    unfold call_api_response
    rw [if_pos h]
  unfold generate_try
  simp only [Except.bind]
  rw [hc]

/-- A 200 response whose parsed body has no predictions raises the
"no images produced" `APIError`. -/
lemma generate_try_empty (count : Int) (resp : HttpResponse) (r : ApiResult)
    (h200 : resp.status_code = 200) (hj : resp.jsonBody = .ok r)
    (hp : r.predictions.getD [] = []) :
    generate_try count (.ok resp) =
      .error (.apiError "이미지가 생성되지 않았습니다" none) := by
  have hc : call_api_response resp = .ok r := by
    unfold call_api_response
    rw [if_neg (by simp [h200])]
    exact hj
  unfold generate_try
  simp only [Except.bind]
  rw [hc]
  simp [hp]

/-- A 200 response with a nonempty prediction list that all convert:
the result is the first image for `count == 1` and the whole list
otherwise. -/
lemma generate_try_images (count : Int) (resp : HttpResponse) (r : ApiResult)
    (p : Prediction) (ps : List Prediction) (i : GeneratedImage)
    (tl : List GeneratedImage)
    (h200 : resp.status_code = 200) (hj : resp.jsonBody = .ok r)
    (hp : r.predictions = some (p :: ps))
    (hm : map_from_api (p :: ps) = .ok (i :: tl)) :
    generate_try count (.ok resp) =
      if count = 1 then .ok (.single i) else .ok (.many (i :: tl)) := by
  have hc : call_api_response resp = .ok r := by
    unfold call_api_response
    rw [if_neg (by simp [h200])]
    exact hj
  unfold generate_try
  simp only [Except.bind]
  rw [hc]
  simp only [hp, Option.getD_some, List.isEmpty_cons, Bool.false_eq_true,
    if_false, hm]

/-- Any error raised by `a2b_base64` is a `binascii.Error`. -/
lemma a2b_base64_loop_error (l : List Nat) (quad_pos leftchar pads : Nat)
    (acc : List Nat) (e : PyErr)
    (h : a2b_base64_loop l quad_pos leftchar pads acc = .error e) :
    ∃ m, e = .binasciiError m := by
  induction l generalizing quad_pos leftchar pads acc with
  | nil =>
    simp only [a2b_base64_loop] at h
    split at h
    · cases h
    · split at h
      · cases h; exact ⟨_, rfl⟩
      · cases h; exact ⟨_, rfl⟩
  | cons c rest ih =>
    simp only [a2b_base64_loop] at h
    split at h
    · split at h
      · split at h
        · cases h
        · exact ih _ _ _ _ h
      · exact ih _ _ _ _ h
    · cases hv : b64table c with
      | none => rw [hv] at h; exact ih _ _ _ _ h
      | some v =>
        rw [hv] at h
        rcases hq : quad_pos with _ | _ | _ | q <;> rw [hq] at h <;>
          exact ih _ _ _ _ h

/-- Any error raised by `b64decode` is a `binascii.Error` or a builtin
`ValueError` (the ASCII-encoding step); none is in the `ImagenError`
family. -/
lemma b64decode_error (s : String) (e : PyErr)
    (h : b64decode s = .error e) :
    (∃ m, e = .binasciiError m ∨ e = .valueError m) ∧ e.isImagenError = false := by
  unfold b64decode at h
  dsimp only at h
  split at h
  · obtain ⟨m, hm⟩ := a2b_base64_loop_error _ _ _ _ _ _ h
    exact ⟨⟨m, Or.inl hm⟩, by rw [hm]; rfl⟩
  · cases h
    exact ⟨⟨_, Or.inr rfl⟩, rfl⟩

/-! ### Claim theorems -/

/-- C7: for every `generate()` call on a client whose credential slot is
unset, the call fails with `AuthenticationError` before any request
construction or network access (the POST-reached flag stays `false`). -/
theorem C7_no_credentials (project_id location prompt model aspect_ratio : String)
    (count : Int) (negative_prompt : Option String) (seed : Option Int)
    (safety_setting : String) (enhance_prompt : Bool)
    (transport : Except PyErr HttpResponse) :
    ImagenClient.generate ⟨project_id, location, none⟩ prompt model aspect_ratio
      count negative_prompt seed safety_setting enhance_prompt transport =
    (.error (.authenticationError "인증이 설정되지 않았습니다. setup_credentials() 호출 필요"),
     false) := rfl

/-- C8: for every `generate()` call whose HTTP response has a non-200
status `s`, the call fails with an `APIError` whose status-code field is
`s` and whose message is `"HTTP {s}: {text}"` — in particular the raw
response text is a suffix of the message. -/
theorem C8_non200 (project_id location token prompt model aspect_ratio : String)
    (count : Int) (negative_prompt : Option String) (seed : Option Int)
    (safety_setting : String) (enhance_prompt : Bool) (resp : HttpResponse)
    (h1 : ¬(prompt = "" ∨ py_strip prompt = ""))
    (h2 : ¬(count < 1 ∨ 4 < count))
    (h3 : valid_ratios.contains aspect_ratio = true)
    (hm : SUPPORTED_MODELS.contains model = true)
    (hs : resp.status_code ≠ 200) :
    ImagenClient.generate ⟨project_id, location, some token⟩ prompt model
      aspect_ratio count negative_prompt seed safety_setting enhance_prompt
      (.ok resp) =
    (.error (.apiError ("HTTP " ++ toString resp.status_code ++ ": " ++ resp.text)
        (some resp.status_code)), true)
    ∧ ∃ q, "HTTP " ++ toString resp.status_code ++ ": " ++ resp.text =
        q ++ resp.text := by
  have hg := generate_valid project_id location token prompt model aspect_ratio
    count negative_prompt seed safety_setting enhance_prompt (.ok resp) h1 h2 h3 hm
  rw [generate_try_non200 count resp hs] at hg
  refine ⟨?_, ⟨"HTTP " ++ toString resp.status_code ++ ": ", rfl⟩⟩
  rw [hg]
  rfl

/-- Witness for C8: a simulated 403 with body text `forbidden`. -/
theorem C8_non200_witness :
    ImagenClient.generate ⟨"proj", "us-central1", some "tok"⟩ "a cat"
      "imagegeneration@006" "1:1" 1 none none "block_medium_and_above" true
      (.ok ⟨403, "forbidden", .ok ⟨none⟩⟩) =
    (.error (.apiError "HTTP 403: forbidden" (some 403)), true) := by
  have h := (C8_non200 "proj" "us-central1" "tok" "a cat" "imagegeneration@006"
    "1:1" 1 none none "block_medium_and_above" true ⟨403, "forbidden", .ok ⟨none⟩⟩
    (by decide) (by decide) (by decide) (by decide) (by decide)).1
  exact h

/-- C10: inside `generate`'s API-call-and-parse phase, an exception outside
the `ImagenError` family is re-raised wrapped as an `APIError` with no
status code, while an `ImagenError` subtype propagates unchanged. -/
theorem C10_exception_wrapping (project_id location token prompt model
    aspect_ratio : String) (count : Int) (negative_prompt : Option String)
    (seed : Option Int) (safety_setting : String) (enhance_prompt : Bool)
    (e : PyErr)
    (h1 : ¬(prompt = "" ∨ py_strip prompt = ""))
    (h2 : ¬(count < 1 ∨ 4 < count))
    (h3 : valid_ratios.contains aspect_ratio = true)
    (hm : SUPPORTED_MODELS.contains model = true) :
    (e.isImagenError = false →
      ImagenClient.generate ⟨project_id, location, some token⟩ prompt model
        aspect_ratio count negative_prompt seed safety_setting enhance_prompt
        (.error e) =
      (.error (.apiError ("이미지 생성 실패: " ++ e.str) none), true))
    ∧ (e.isImagenError = true →
      ImagenClient.generate ⟨project_id, location, some token⟩ prompt model
        aspect_ratio count negative_prompt seed safety_setting enhance_prompt
        (.error e) =
      (.error e, true)) := by
  have hg := generate_valid project_id location token prompt model aspect_ratio
    count negative_prompt seed safety_setting enhance_prompt (.error e) h1 h2 h3 hm
  rw [generate_try_transport count e] at hg
  constructor
  · intro hni
    rw [hg]
    simp [wrapExc, hni]
  · intro hi
    rw [hg]
    simp [wrapExc, hi]

/-- Witness for C10: a transport failure (not an `ImagenError`) is wrapped;
an `APIError` raised in the phase propagates unchanged. -/
theorem C10_exception_wrapping_witness :
    ImagenClient.generate ⟨"proj", "us-central1", some "tok"⟩ "a cat"
      "imagegeneration@006" "1:1" 1 none none "block_medium_and_above" true
      (.error (.otherExc "connection reset")) =
    (.error (.apiError "이미지 생성 실패: connection reset" none), true)
    ∧ ImagenClient.generate ⟨"proj", "us-central1", some "tok"⟩ "a cat"
      "imagegeneration@006" "1:1" 1 none none "block_medium_and_above" true
      (.error (.apiError "HTTP 500: boom" (some 500))) =
    (.error (.apiError "HTTP 500: boom" (some 500)), true) := by
  constructor
  · have h := (C10_exception_wrapping "proj" "us-central1" "tok" "a cat"
      "imagegeneration@006" "1:1" 1 none none "block_medium_and_above" true
      (.otherExc "connection reset") (by decide) (by decide) (by decide)
      (by decide)).1 (by decide)
    exact h
  · exact (C10_exception_wrapping "proj" "us-central1" "tok" "a cat"
      "imagegeneration@006" "1:1" 1 none none "block_medium_and_above" true
      (.apiError "HTTP 500: boom" (some 500)) (by decide) (by decide) (by decide)
      (by decide)).2 (by decide)

/-- Counterexample for C1: a 200 response carrying only 2 predictions for a
validated `count = 3` request returns the 2 images — fewer than requested —
instead of failing as a whole. -/
theorem C1_counterexample :
    ImagenClient.generate ⟨"proj", "us-central1", some "tok"⟩ "a cat"
      "imagegeneration@006" "1:1" 3 none none "block_medium_and_above" true
      (.ok ⟨200, "",
        .ok ⟨some [⟨some "aGk=", none⟩, ⟨some "YWI=", none⟩]⟩⟩) =
    (.ok (.many [GeneratedImage.init "aGk=" "" none,
                 GeneratedImage.init "YWI=" "" none]), true)
    ∧ [GeneratedImage.init "aGk=" "" none,
       GeneratedImage.init "YWI=" "" none].length = 2 ∧ (2 : Int) < 3 := by
  exact ⟨rfl, rfl, by decide⟩

/-- C1 (amended): a 200 response with an empty (or absent) `predictions`
array makes the whole call fail with `APIError` ("no images produced"),
never an empty success; a 200 response with a nonempty `predictions` array
that all convert yields exactly one image per prediction — which is fewer
than `count` when the array is shorter than `count`. -/
theorem C1_all_or_nothing (project_id location token prompt model
    aspect_ratio : String) (count : Int) (negative_prompt : Option String)
    (seed : Option Int) (safety_setting : String) (enhance_prompt : Bool)
    (resp : HttpResponse) (r : ApiResult)
    (h1 : ¬(prompt = "" ∨ py_strip prompt = ""))
    (h2 : ¬(count < 1 ∨ 4 < count))
    (h3 : valid_ratios.contains aspect_ratio = true)
    (hm : SUPPORTED_MODELS.contains model = true)
    (h200 : resp.status_code = 200) (hj : resp.jsonBody = .ok r) :
    (r.predictions.getD [] = [] →
      ImagenClient.generate ⟨project_id, location, some token⟩ prompt model
        aspect_ratio count negative_prompt seed safety_setting enhance_prompt
        (.ok resp) =
      (.error (.apiError "이미지가 생성되지 않았습니다" none), true))
    ∧ (∀ p ps imgs, r.predictions = some (p :: ps) →
        map_from_api (p :: ps) = .ok imgs →
        imgs.length = (p :: ps).length ∧
        (count ≠ 1 →
          ImagenClient.generate ⟨project_id, location, some token⟩ prompt model
            aspect_ratio count negative_prompt seed safety_setting
            enhance_prompt (.ok resp) =
          (.ok (.many imgs), true))) := by
  constructor
  · intro hp
    have hg := generate_valid project_id location token prompt model
      aspect_ratio count negative_prompt seed safety_setting enhance_prompt
      (.ok resp) h1 h2 h3 hm
    rw [generate_try_empty count resp r h200 hj hp] at hg
    rw [hg]
    rfl
  · intro p ps imgs hp hmap
    refine ⟨map_from_api_length _ _ hmap, ?_⟩
    intro hc1
    obtain ⟨i, tl, hpi, htl, himgs⟩ := map_from_api_cons p ps imgs hmap
    subst himgs
    have hg := generate_valid project_id location token prompt model
      aspect_ratio count negative_prompt seed safety_setting enhance_prompt
      (.ok resp) h1 h2 h3 hm
    rw [generate_try_images count resp r p ps i tl h200 hj hp hmap,
      if_neg hc1] at hg
    rw [hg]

/-- Witness for C1 (amended): empty predictions fail; two predictions for a
`count = 3` request give exactly two images. -/
theorem C1_all_or_nothing_witness :
    ImagenClient.generate ⟨"proj", "us-central1", some "tok"⟩ "a cat"
      "imagegeneration@006" "1:1" 3 none none "block_medium_and_above" true
      (.ok ⟨200, "", .ok ⟨some []⟩⟩) =
    (.error (.apiError "이미지가 생성되지 않았습니다" none), true)
    ∧ ImagenClient.generate ⟨"proj", "us-central1", some "tok"⟩ "a cat"
      "imagegeneration@006" "1:1" 3 none none "block_medium_and_above" true
      (.ok ⟨200, "",
        .ok ⟨some [⟨some "aGk=", none⟩, ⟨some "YWI=", none⟩]⟩⟩) =
    (.ok (.many [GeneratedImage.init "aGk=" "" none,
                 GeneratedImage.init "YWI=" "" none]), true) := by
  constructor
  · exact (C1_all_or_nothing "proj" "us-central1" "tok" "a cat"
      "imagegeneration@006" "1:1" 3 none none "block_medium_and_above" true
      ⟨200, "", .ok ⟨some []⟩⟩ ⟨some []⟩ (by decide) (by decide) (by decide)
      (by decide) rfl rfl).1 rfl
  · exact ((C1_all_or_nothing "proj" "us-central1" "tok" "a cat"
      "imagegeneration@006" "1:1" 3 none none "block_medium_and_above" true
      ⟨200, "", .ok ⟨some [⟨some "aGk=", none⟩, ⟨some "YWI=", none⟩]⟩⟩
      ⟨some [⟨some "aGk=", none⟩, ⟨some "YWI=", none⟩]⟩ (by decide) (by decide)
      (by decide) (by decide) rfl rfl).2 ⟨some "aGk=", none⟩
      [⟨some "YWI=", none⟩]
      [GeneratedImage.init "aGk=" "" none, GeneratedImage.init "YWI=" "" none]
      rfl rfl).2 (by decide)

/-- C6: for a successful `generate()`, `count = 1` yields the bare first
`GeneratedImage` (not wrapped in a collection); `count ≠ 1` yields the list
of images in response order, one per prediction. -/
theorem C6_return_shape (project_id location token prompt model
    aspect_ratio : String) (count : Int) (negative_prompt : Option String)
    (seed : Option Int) (safety_setting : String) (enhance_prompt : Bool)
    (resp : HttpResponse) (r : ApiResult) (p : Prediction)
    (ps : List Prediction) (i : GeneratedImage) (tl : List GeneratedImage)
    (h1 : ¬(prompt = "" ∨ py_strip prompt = ""))
    (h2 : ¬(count < 1 ∨ 4 < count))
    (h3 : valid_ratios.contains aspect_ratio = true)
    (hm : SUPPORTED_MODELS.contains model = true)
    (h200 : resp.status_code = 200) (hj : resp.jsonBody = .ok r)
    (hp : r.predictions = some (p :: ps))
    (hmap : map_from_api (p :: ps) = .ok (i :: tl)) :
    (count = 1 →
      ImagenClient.generate ⟨project_id, location, some token⟩ prompt model
        aspect_ratio count negative_prompt seed safety_setting enhance_prompt
        (.ok resp) =
      (.ok (.single i), true))
    ∧ (count ≠ 1 →
      ImagenClient.generate ⟨project_id, location, some token⟩ prompt model
        aspect_ratio count negative_prompt seed safety_setting enhance_prompt
        (.ok resp) =
      (.ok (.many (i :: tl)), true) ∧ (i :: tl).length = (p :: ps).length) := by
  have hg := generate_valid project_id location token prompt model aspect_ratio
    count negative_prompt seed safety_setting enhance_prompt (.ok resp)
    h1 h2 h3 hm
  rw [generate_try_images count resp r p ps i tl h200 hj hp hmap] at hg
  constructor
  · intro hc1
    rw [if_pos hc1] at hg
    rw [hg]
  · intro hc1
    rw [if_neg hc1] at hg
    exact ⟨by rw [hg], map_from_api_length _ _ hmap⟩

/-- Witness for C6: a `count = 1` request returns a bare image; a
`count = 3` request with 3 predictions returns the 3 images in order. -/
theorem C6_return_shape_witness :
    ImagenClient.generate ⟨"proj", "us-central1", some "tok"⟩ "a cat"
      "imagegeneration@006" "1:1" 1 none none "block_medium_and_above" true
      (.ok ⟨200, "", .ok ⟨some [⟨some "aGk=", some "p1"⟩]⟩⟩) =
    (.ok (.single (GeneratedImage.init "aGk=" "p1" (some "p1"))), true)
    ∧ ImagenClient.generate ⟨"proj", "us-central1", some "tok"⟩ "a cat"
      "imagegeneration@006" "1:1" 3 none none "block_medium_and_above" true
      (.ok ⟨200, "",
        .ok ⟨some [⟨some "QQ==", some "p1"⟩, ⟨some "Qg==", some "p2"⟩,
                   ⟨some "Qw==", some "p3"⟩]⟩⟩) =
    (.ok (.many [GeneratedImage.init "QQ==" "p1" (some "p1"),
                 GeneratedImage.init "Qg==" "p2" (some "p2"),
                 GeneratedImage.init "Qw==" "p3" (some "p3")]), true) := by
  constructor
  · exact (C6_return_shape "proj" "us-central1" "tok" "a cat"
      "imagegeneration@006" "1:1" 1 none none "block_medium_and_above" true
      ⟨200, "", .ok ⟨some [⟨some "aGk=", some "p1"⟩]⟩⟩
      ⟨some [⟨some "aGk=", some "p1"⟩]⟩ ⟨some "aGk=", some "p1"⟩ []
      (GeneratedImage.init "aGk=" "p1" (some "p1")) [] (by decide) (by decide)
      (by decide) (by decide) rfl rfl rfl rfl).1 rfl
  · exact ((C6_return_shape "proj" "us-central1" "tok" "a cat"
      "imagegeneration@006" "1:1" 3 none none "block_medium_and_above" true
      ⟨200, "", .ok ⟨some [⟨some "QQ==", some "p1"⟩, ⟨some "Qg==", some "p2"⟩,
        ⟨some "Qw==", some "p3"⟩]⟩⟩
      ⟨some [⟨some "QQ==", some "p1"⟩, ⟨some "Qg==", some "p2"⟩,
        ⟨some "Qw==", some "p3"⟩]⟩ ⟨some "QQ==", some "p1"⟩
      [⟨some "Qg==", some "p2"⟩, ⟨some "Qw==", some "p3"⟩]
      (GeneratedImage.init "QQ==" "p1" (some "p1"))
      [GeneratedImage.init "Qg==" "p2" (some "p2"),
       GeneratedImage.init "Qw==" "p3" (some "p3")] (by decide) (by decide)
      (by decide) (by decide) rfl rfl rfl rfl).2 (by decide)).1

/-- Counterexample for C3: an out-of-range count fails with Python's
builtin `ValueError`, not with the library's `ValidationError` (it is not
even in the `ImagenError` family). -/
theorem C3_counterexample :
    mkImageRequest "a cat" "imagegeneration@006" "1:1" 0 none none
      "block_medium_and_above" true =
    .error (.valueError "이미지 개수는 1-4개여야 합니다")
    ∧ (PyErr.valueError "이미지 개수는 1-4개여야 합니다").isImagenError = false
    ∧ PyErr.valueError "이미지 개수는 1-4개여야 합니다" ≠
        PyErr.validationError "이미지 개수는 1-4개여야 합니다" := by
  exact ⟨rfl, rfl, by decide⟩

/-- C3 (amended): constructing a request with an empty or whitespace-only
prompt fails ("prompt required"), a count outside [1,4] fails
("count must be 1-4"), and an unsupported aspect ratio fails (message
enumerating the valid set) — each with Python's builtin `ValueError` (not
the library's `ValidationError`), each before any network access;
construction succeeds for every count in [1,4] given an otherwise-valid
prompt and ratio. -/
theorem C3_validation (prompt model aspect_ratio : String) (count : Int)
    (negative_prompt : Option String) (seed : Option Int)
    (safety_setting : String) (enhance_prompt : Bool) :
    (∀ e, mkImageRequest prompt model aspect_ratio count negative_prompt seed
        safety_setting enhance_prompt = .error e → ∃ msg, e = .valueError msg)
    ∧ ((prompt = "" ∨ py_strip prompt = "") →
        mkImageRequest prompt model aspect_ratio count negative_prompt seed
          safety_setting enhance_prompt =
        .error (.valueError "프롬프트는 필수입니다"))
    ∧ ((count < 1 ∨ 4 < count) → ¬(prompt = "" ∨ py_strip prompt = "") →
        mkImageRequest prompt model aspect_ratio count negative_prompt seed
          safety_setting enhance_prompt =
        .error (.valueError "이미지 개수는 1-4개여야 합니다"))
    ∧ (valid_ratios.contains aspect_ratio = false →
        ¬(prompt = "" ∨ py_strip prompt = "") → ¬(count < 1 ∨ 4 < count) →
        mkImageRequest prompt model aspect_ratio count negative_prompt seed
          safety_setting enhance_prompt =
        .error (.valueError ("지원되는 비율: " ++ py_list_repr valid_ratios)))
    ∧ (¬(prompt = "" ∨ py_strip prompt = "") → ¬(count < 1 ∨ 4 < count) →
        valid_ratios.contains aspect_ratio = true →
        mkImageRequest prompt model aspect_ratio count negative_prompt seed
          safety_setting enhance_prompt =
        .ok { prompt := prompt, model := model, aspect_ratio := aspect_ratio,
              count := count, negative_prompt := negative_prompt, seed := seed,
              safety_setting := safety_setting,
              enhance_prompt := enhance_prompt })
    ∧ (∀ project_id location token transport e,
        mkImageRequest prompt model aspect_ratio count negative_prompt seed
          safety_setting enhance_prompt = .error e →
        ImagenClient.generate ⟨project_id, location, some token⟩ prompt model
          aspect_ratio count negative_prompt seed safety_setting enhance_prompt
          transport = (.error e, false)) := by
  refine ⟨?_, ?_, ?_, ?_, ?_, ?_⟩
  · intro e he
    unfold mkImageRequest at he
    split at he
    · cases he
      exact ⟨_, rfl⟩
    · split at he
      · cases he
        exact ⟨_, rfl⟩
      · split at he
        · cases he
        · cases he
          exact ⟨_, rfl⟩
  · intro hp
    unfold mkImageRequest
    rw [if_pos hp]
  · intro hc hp
    unfold mkImageRequest
    rw [if_neg hp, if_pos hc]
  · intro hr hp hc
    unfold mkImageRequest
    rw [if_neg hp, if_neg hc, if_neg (by rw [hr]; simp)]
  · intro hp hc hr
    exact mkImageRequest_ok prompt model aspect_ratio count negative_prompt
      seed safety_setting enhance_prompt hp hc hr
  · intro project_id location token transport e he
    unfold ImagenClient.generate
    rw [he]

/-- Witness for C3 (amended): a whitespace-only prompt (an ideographic
space and a space) fails; count 0 fails and never reaches the network; an
unsupported ratio fails with the enumerating message; count 4 with a valid
prompt and ratio succeeds. -/
theorem C3_validation_witness :
    mkImageRequest "　 " "imagegeneration@006" "1:1" 1 none none
      "block_medium_and_above" true =
      .error (.valueError "프롬프트는 필수입니다")
    ∧ ImagenClient.generate ⟨"proj", "us-central1", some "tok"⟩ "a cat"
      "imagegeneration@006" "1:1" 0 none none "block_medium_and_above" true
      (.ok ⟨200, "", .ok ⟨none⟩⟩) =
    (.error (.valueError "이미지 개수는 1-4개여야 합니다"), false)
    ∧ mkImageRequest "a cat" "imagegeneration@006" "2:3" 1 none none
        "block_medium_and_above" true =
      .error (.valueError "지원되는 비율: ['1:1', '3:4', '4:3', '16:9', '9:16']")
    ∧ mkImageRequest "a cat" "imagegeneration@006" "1:1" 4 none none
        "block_medium_and_above" true =
      .ok { prompt := "a cat", model := "imagegeneration@006",
            aspect_ratio := "1:1", count := 4, negative_prompt := none,
            seed := none, safety_setting := "block_medium_and_above",
            enhance_prompt := true } := by
  refine ⟨?_, ?_, ?_, ?_⟩
  · exact (C3_validation "　 " "imagegeneration@006" "1:1" 1 none none
      "block_medium_and_above" true).2.1 (by decide)
  · exact (C3_validation "a cat" "imagegeneration@006" "1:1" 0 none none
      "block_medium_and_above" true).2.2.2.2.2 "proj" "us-central1" "tok"
      (.ok ⟨200, "", .ok ⟨none⟩⟩) (.valueError "이미지 개수는 1-4개여야 합니다")
      ((C3_validation "a cat" "imagegeneration@006" "1:1" 0 none none
        "block_medium_and_above" true).2.2.1 (by decide) (by decide))
  · have hmsg : "지원되는 비율: " ++ py_list_repr valid_ratios =
        "지원되는 비율: ['1:1', '3:4', '4:3', '16:9', '9:16']" := by decide
    exact ((C3_validation "a cat" "imagegeneration@006" "2:3" 1 none none
      "block_medium_and_above" true).2.2.2.1 (by decide) (by decide)
      (by decide)).trans (by rw [hmsg])
  · exact (C3_validation "a cat" "imagegeneration@006" "1:1" 4 none none
      "block_medium_and_above" true).2.2.2.2.1 (by decide) (by decide)
      (by decide)

/-- Counterexample for C4: `base64.b64decode` in its default non-strict
mode silently skips characters outside the alphabet, so the non-decodable
string `"!!!!"` yields an empty byte buffer with no error; and an actual
decode failure (`"A"`) raises `binascii.Error`, which is not in the
`ImagenError` family. -/
theorem C4_counterexample :
    (GeneratedImage.init "!!!!" "p" none).image_data =
      .ok ([], { base64_data := "!!!!", prompt := "p", enhanced_prompt := "p",
                 image_cache := some [] })
    ∧ b64decode "!!!!" = .ok []
    ∧ b64decode "A" =
      .error (.binasciiError
        "Invalid base64-encoded string: number of data characters cannot be 1 more than a multiple of 4")
    ∧ (PyErr.binasciiError
        "Invalid base64-encoded string: number of data characters cannot be 1 more than a multiple of 4").isImagenError
      = false := by
  exact ⟨rfl, rfl, rfl, rfl⟩

/-- C4 (amended): when `b64decode` fails, the first access of `image_data`
surfaces exactly that error — a `binascii.Error` or builtin `ValueError`,
both outside the `ImagenError` family — and is not swallowed; a string of
only non-alphabet characters, however, is not a decode failure: it decodes
silently to an empty buffer. -/
theorem C4_decode_error (img : GeneratedImage) (e : PyErr)
    (hc : img.image_cache = none)
    (hd : b64decode img.base64_data = .error e) :
    img.image_data = .error e
    ∧ (∃ m, e = .binasciiError m ∨ e = .valueError m)
    ∧ e.isImagenError = false := by
  refine ⟨?_, (b64decode_error _ _ hd).1, (b64decode_error _ _ hd).2⟩
  unfold GeneratedImage.image_data
  rw [hc, hd]

/-- Witness for C4 (amended): the single-character input `"A"`. -/
theorem C4_decode_error_witness :
    (GeneratedImage.init "A" "p" none).image_data =
      .error (.binasciiError
        "Invalid base64-encoded string: number of data characters cannot be 1 more than a multiple of 4")
    ∧ (PyErr.binasciiError
        "Invalid base64-encoded string: number of data characters cannot be 1 more than a multiple of 4").isImagenError
      = false := by
  have h := C4_decode_error (GeneratedImage.init "A" "p" none)
    (.binasciiError
      "Invalid base64-encoded string: number of data characters cannot be 1 more than a multiple of 4")
    rfl rfl
  exact ⟨h.1, h.2.2⟩

/-- C5: each prediction maps to a `GeneratedImage` with
`base64_data = prediction.bytesBase64Encoded`; `prompt` is the
prediction's prompt, or empty when absent; `enhanced_prompt` equals the
prediction's prompt when present, and when it is absent falls back to the
image's own `prompt` field (the empty string, since the constructor is
called with the prediction's prompt, not the request's). -/
theorem C5_prediction_to_image (pred : Prediction) (b : String)
    (hb : pred.bytesBase64Encoded = some b) :
    GeneratedImage.from_api_response pred =
      .ok (GeneratedImage.init b (pred.prompt.getD "") pred.prompt)
    ∧ (GeneratedImage.init b (pred.prompt.getD "") pred.prompt).base64_data = b
    ∧ (GeneratedImage.init b (pred.prompt.getD "") pred.prompt).prompt =
        pred.prompt.getD ""
    ∧ (∀ p, pred.prompt = some p →
        (GeneratedImage.init b (pred.prompt.getD "") pred.prompt).enhanced_prompt
          = p)
    ∧ (pred.prompt = none →
        (GeneratedImage.init b (pred.prompt.getD "") pred.prompt).enhanced_prompt
          = (GeneratedImage.init b (pred.prompt.getD "") pred.prompt).prompt
        ∧ (GeneratedImage.init b (pred.prompt.getD "") pred.prompt).prompt
          = "") := by
  refine ⟨?_, rfl, rfl, ?_, ?_⟩
  · unfold GeneratedImage.from_api_response
    rw [hb]
  · intro p hp
    rw [hp]
    by_cases h : p = ""
    · simp [GeneratedImage.init, h]
    · simp [GeneratedImage.init, h]
  · intro hp
    rw [hp]
    exact ⟨rfl, rfl⟩

/-- Witness for C5: a prediction with both keys present, and one with the
prompt key absent. -/
theorem C5_prediction_to_image_witness :
    GeneratedImage.from_api_response ⟨some "aGk=", some "enh"⟩ =
      .ok (GeneratedImage.init "aGk=" "enh" (some "enh"))
    ∧ (GeneratedImage.init "aGk=" "enh" (some "enh")).enhanced_prompt = "enh"
    ∧ GeneratedImage.from_api_response ⟨some "aGk=", none⟩ =
      .ok (GeneratedImage.init "aGk=" "" none)
    ∧ (GeneratedImage.init "aGk=" "" none).enhanced_prompt = "" := by
  have h1 := C5_prediction_to_image ⟨some "aGk=", some "enh"⟩ "aGk=" rfl
  have h2 := C5_prediction_to_image ⟨some "aGk=", none⟩ "aGk=" rfl
  exact ⟨h1.1, h1.2.2.2.1 "enh" rfl, h2.1, (h2.2.2.2.2 rfl).1⟩

/-- C9: when `base64_data` decodes successfully, the first access of
`image_data` returns exactly the binary decode and caches it, and an
access on the cached object returns the identical bytes again. -/
theorem C9_roundtrip_cache (s prompt : String) (ep : Option String)
    (bs : List Nat) (hd : b64decode s = .ok bs) :
    (GeneratedImage.init s prompt ep).image_data =
      .ok (bs, { GeneratedImage.init s prompt ep with image_cache := some bs })
    ∧ ({ GeneratedImage.init s prompt ep with image_cache := some bs } :
          GeneratedImage).image_data =
      .ok (bs, { GeneratedImage.init s prompt ep with
                 image_cache := some bs }) := by
  constructor
  · unfold GeneratedImage.image_data
    rw [show (GeneratedImage.init s prompt ep).image_cache = none from rfl,
      show (GeneratedImage.init s prompt ep).base64_data = s from rfl, hd]
    rfl
  · rfl

/-- Witness for C9: the base64 string `"aGk="`, which decodes to the two
bytes of `"hi"`. -/
theorem C9_roundtrip_cache_witness :
    (GeneratedImage.init "aGk=" "p" none).image_data =
      .ok ([104, 105],
        { GeneratedImage.init "aGk=" "p" none with image_cache := some [104, 105] })
    ∧ ({ GeneratedImage.init "aGk=" "p" none with
         image_cache := some [104, 105] } : GeneratedImage).image_data =
      .ok ([104, 105],
        { GeneratedImage.init "aGk=" "p" none with
          image_cache := some [104, 105] }) :=
  C9_roundtrip_cache "aGk=" "p" none [104, 105] rfl

/-- Counterexample for C2: a request whose `safety_setting` equals the
default `"block_medium_and_above"` still gets a `safetySetting` key in the
built body, because `_call_api` tests plain truthiness
(`if request.safety_setting:`), not deviation from the default. -/
theorem C2_counterexample :
    List.lookup "safetySetting"
      (request_parameters
        { prompt := "a cat", model := "imagegeneration@006",
          aspect_ratio := "1:1", count := 1, negative_prompt := none,
          seed := none, safety_setting := "block_medium_and_above",
          enhance_prompt := true }) =
      some (.s "block_medium_and_above")
    ∧ (request_parameters
        { prompt := "a cat", model := "imagegeneration@006",
          aspect_ratio := "1:1", count := 1, negative_prompt := none,
          seed := none, safety_setting := "block_medium_and_above",
          enhance_prompt := true }).map Prod.fst =
      ["sampleCount", "aspectRatio", "addWatermark", "enhancePrompt",
       "safetySetting"] := by
  exact ⟨rfl, rfl⟩

/-- C2 (amended): the built body is
`instances: [{prompt}]` and `parameters` with exactly `sampleCount`,
`aspectRatio`, `addWatermark=false`, `enhancePrompt` plus `negativePrompt`
when present and non-empty, `safetySetting` whenever the string is
non-empty (in particular also at its default value), and `seed` when not
`None`. -/
theorem C2_request_body (req : ImageRequest) :
    build_request_data req =
      .obj [("instances", .arr [.obj [("prompt", .s req.prompt)]]),
            ("parameters", .obj (request_parameters req))]
    ∧ List.lookup "sampleCount" (request_parameters req) = some (.i req.count)
    ∧ List.lookup "aspectRatio" (request_parameters req) =
        some (.s req.aspect_ratio)
    ∧ List.lookup "addWatermark" (request_parameters req) = some (.b false)
    ∧ List.lookup "enhancePrompt" (request_parameters req) =
        some (.b req.enhance_prompt)
    ∧ List.lookup "negativePrompt" (request_parameters req) =
        (match req.negative_prompt with
         | some np => if np = "" then none else some (.s np)
         | none => none)
    ∧ List.lookup "safetySetting" (request_parameters req) =
        (if req.safety_setting = "" then none else some (.s req.safety_setting))
    ∧ List.lookup "seed" (request_parameters req) = req.seed.map JVal.i
    ∧ (request_parameters req).map Prod.fst =
        ["sampleCount", "aspectRatio", "addWatermark", "enhancePrompt"]
        ++ (match req.negative_prompt with
            | some np => if np = "" then [] else ["negativePrompt"]
            | none => [])
        ++ (if req.safety_setting = "" then [] else ["safetySetting"])
        ++ (match req.seed with | some _ => ["seed"] | none => []) := by
  obtain ⟨p, m, a, c, np, sd, ss, ep⟩ := req
  refine ⟨rfl, ?_⟩
  rcases np with _ | np
  · rcases sd with _ | sd <;> by_cases hss : ss = "" <;>
      simp [request_parameters, List.lookup, hss]
  · by_cases hnp : np = "" <;> rcases sd with _ | sd <;>
      by_cases hss : ss = "" <;>
      simp [request_parameters, List.lookup, hss, hnp]
